import Mathlib

/-!
# Verification of the agola gateway webhook pipeline and secret lifecycle

Shallow embedding of `internal/services/gateway/api/webhook.go` (the
`webhooksHandler.do` pipeline) and of the `action` package secret handlers
(`GetSecrets`, `CreateSecret`, `UpdateSecret`, `DeleteSecret`).

The remote collaborators (configstore client, authorization service, provider
client factory, run-creation service) are modelled as records of pure
functions returning `Except`.  Every externally observable action the
handlers perform (store calls, the authorization query, closing the request
body, log messages, webhook parsing, run creation) is recorded in an effect
trace, so that statements like "no store mutation call is performed" are
directly expressible.  Go's `defer` of the body close is modelled by
appending the close effect to the trace of every exit path reached after the
`defer` statement.  A nil-pointer dereference (Go panic) is modelled as a
distinct outcome of the affected handlers.
-/

/-- `cstypes.ObjectKind` is a string type in Go. -/
abbrev ObjectKind := String

def ObjectKindProject : ObjectKind := "project"

def ObjectKindProjectGroup : ObjectKind := "projectgroup"

/-- `cstypes.SecretType` is a string type in Go. -/
abbrev SecretType := String

/-- Remote errors returned by collaborator calls are opaque here; only their
identity matters to the handlers, which wrap them unchanged. -/
abbrev RemoteError := String

/-- Error kinds of `util.NewAPIError` (`util.ErrBadRequest`, `util.ErrForbidden`,
`util.ErrInternal`). -/
inductive APIErrorKind
  | badRequest
  | forbidden
  | internal
  deriving DecidableEq, Repr

/-- Go `error` values produced by the embedded handlers.
`apiError` is `util.NewAPIError` with an optional detailed-error kind (such as
`serrors.InvalidSecretName()`); `apiErrorWrap` is `util.NewAPIErrorWrap`;
`remoteAPIError` is `action.APIErrorFromRemoteError` (defined outside src/:
it remaps the remote error preserving its classification and attaches the
context message, so it is kept abstract, carrying both unchanged);
`wrap` is `errors.Wrapf`. -/
inductive GoErr
  | apiError (kind : APIErrorKind) (detailed : Option String) (msg : String)
  | apiErrorWrap (kind : APIErrorKind) (msg : String) (inner : String)
  | remoteAPIError (remote : RemoteError) (msg : String)
  | wrap (msg : String) (inner : RemoteError)
  deriving DecidableEq, Repr

/-- Is this error the dedicated invalid-secret-name error
(`util.ErrBadRequest` with the `serrors.InvalidSecretName()` detailed kind)? -/
def GoErr.isInvalidSecretNameErr : GoErr → Bool
  | .apiError .badRequest (some d) _ => d == "invalidSecretName"
  | _ => false

/-- `csapitypes.Secret`: name, id, the kind of the parent scope it was
declared at (its hierarchy level tag), secret type and internal data. -/
structure Secret where
  id : String
  name : String
  parentKind : ObjectKind
  type : SecretType
  data : List (String × String)
  deriving DecidableEq, Repr

/-- `csapitypes.CreateUpdateSecretRequest` as built by the handlers. -/
structure CreateUpdateSecretRequest where
  name : String
  type : SecretType
  data : List (String × String)
  deriving DecidableEq, Repr

/-- Calls made against the configstore client. -/
inductive StoreCall
  | getProject (id : String)
  | getUserByLinkedAccount (laID : String)
  | getUserLinkedAccounts (userID : String)
  | getRemoteSource (id : String)
  | getProjectGroupSecrets (ref : String) (tree : Bool)
  | getProjectSecrets (ref : String) (tree : Bool)
  | createProjectGroupSecret (ref : String) (req : CreateUpdateSecretRequest)
  | createProjectSecret (ref : String) (req : CreateUpdateSecretRequest)
  | updateProjectGroupSecret (ref : String) (secretName : String) (req : CreateUpdateSecretRequest)
  | updateProjectSecret (ref : String) (secretName : String) (req : CreateUpdateSecretRequest)
  | deleteProjectGroupSecret (ref : String) (name : String)
  | deleteProjectSecret (ref : String) (name : String)
  deriving DecidableEq, Repr

/-- `cstypes.Project` (the fields this pipeline reads). -/
structure Project where
  linkedAccountID : String
  sshPrivateKey : String
  webhookSecret : String
  skipSSHHostKeyCheck : Bool
  deriving DecidableEq, Repr

/-- `cstypes.User` (the fields this pipeline reads). -/
structure User where
  id : String
  name : String
  deriving DecidableEq, Repr

/-- `cstypes.LinkedAccount` (the fields this pipeline reads). -/
structure LinkedAccount where
  id : String
  remoteSourceID : String
  deriving DecidableEq, Repr

/-- `cstypes.RemoteSource` (the fields this pipeline reads). -/
structure RemoteSource where
  sshHostKey : String
  skipSSHHostKeyCheck : Bool
  deriving DecidableEq, Repr

/-- The repository part of the parsed webhook data. -/
structure WebhookDataRepo where
  path : String
  deriving DecidableEq, Repr

/-- `types.WebhookData`: the provider-agnostic parsed webhook event. -/
structure WebhookData where
  event : String
  sshURL : String
  repo : WebhookDataRepo
  commitSHA : String
  message : String
  branch : String
  tag : String
  pullRequestID : String
  prFromSameRepo : Bool
  ref : String
  commitLink : String
  branchLink : String
  tagLink : String
  pullRequestLink : String
  compareLink : String
  deriving DecidableEq, Repr

/-- Modelled from the spec: `common.WebHookEventToRunRefType` is not under
src/.  The spec says the event kind is mapped to an internal ref-type via a
fixed lookup (branch, tag, pull-request), and unrecognized kinds map to a
defined default rather than crash. -/
def WebHookEventToRunRefType (event : String) : String :=
  if event = "push" then "branch"
  else if event = "tag" then "tag"
  else if event = "pull_request" then "pullrequest"
  else "branch"

/-- `action.CreateRunRequest` as built at webhook.go lines 125-151.  The
`GitSource` field (the provider client handle) is omitted: it is an opaque
collaborator handle with no observable content in this pipeline. -/
structure CreateRunRequest where
  runType : String
  refType : String
  runCreationTrigger : String
  project : Project
  user : Option User
  repoPath : String
  commitSHA : String
  message : String
  branch : String
  tag : String
  pullRequestID : String
  prFromSameRepo : Bool
  ref : String
  sshPrivKey : String
  sshHostKey : String
  skipSSHHostKeyCheck : Bool
  cloneURL : String
  commitLink : String
  branchLink : String
  tagLink : String
  pullRequestLink : String
  compareLink : String
  deriving DecidableEq, Repr

/-- The externally observable actions a handler performs, in order. -/
inductive Effect
  | storeCall (c : StoreCall)
  | authzCall (parentType : ObjectKind) (parentRef : String)
  | bodyClose
  | logMsg (msg : String)
  | getGitSourceCall
  | parseWebhookCall
  | createRunsCall (req : CreateRunRequest)
  deriving DecidableEq, Repr

/-! ## Secret lifecycle handlers (`action` package) -/

/-- `action.GetSecretsRequest`. -/
structure GetSecretsRequest where
  parentType : ObjectKind
  parentRef : String
  tree : Bool
  removeOverridden : Bool
  deriving DecidableEq, Repr

/-- `action.CreateSecretRequest`. -/
structure CreateSecretRequest where
  name : String
  parentType : ObjectKind
  parentRef : String
  type : SecretType
  data : List (String × String)
  secretProviderID : String
  path : String
  deriving DecidableEq, Repr

/-- `action.UpdateSecretRequest`. -/
structure UpdateSecretRequest where
  secretName : String
  name : String
  parentType : ObjectKind
  parentRef : String
  type : SecretType
  data : List (String × String)
  secretProviderID : String
  path : String
  deriving DecidableEq, Repr

/-- The collaborators an `ActionHandler` secret operation uses: the
authorization service (`IsAuthUserVariableOwner`, which may fail) and the
configstore client's secret operations. -/
structure ActionEnv where
  isAuthUserVariableOwner : ObjectKind → String → Except RemoteError Bool
  getProjectGroupSecrets : String → Bool → Except RemoteError (List Secret)
  getProjectSecrets : String → Bool → Except RemoteError (List Secret)
  createProjectGroupSecret : String → CreateUpdateSecretRequest → Except RemoteError Secret
  createProjectSecret : String → CreateUpdateSecretRequest → Except RemoteError Secret
  updateProjectGroupSecret : String → String → CreateUpdateSecretRequest → Except RemoteError Secret
  updateProjectSecret : String → String → CreateUpdateSecretRequest → Except RemoteError Secret
  deleteProjectGroupSecret : String → String → Except RemoteError Unit
  deleteProjectSecret : String → String → Except RemoteError Unit

/-- Modelled from the spec: `util.ValidateName` is not under src/.  The spec
describes a name-syntax rule (alphanumeric-and-separator policy) rejecting,
for example, the empty string and names containing whitespace. -/
def ValidateName (s : String) : Bool :=
  !s.isEmpty && s.toList.all (fun c => c.isAlphanum || c == '-')

/-- Modelled from the spec: hierarchy depth of a secret's level tag.  The
Project leaf is the most specific (deepest) level; ProjectGroup ancestors are
shallower. -/
def levelDepth (k : ObjectKind) : Nat :=
  if k = ObjectKindProject then 1 else 0

/-- Modelled from the spec: `common.FilterOverriddenSecrets` is not under
src/.  The spec: the output contains, for each distinct name, only the
secret from the most specific (deepest / closest to the leaf Project) level;
secrets from shallower ancestor levels with the same name are dropped. -/
def FilterOverriddenSecrets (secrets : List Secret) : List Secret :=
  secrets.filter fun s =>
    secrets.all fun t => !(t.name == s.name && levelDepth s.parentKind < levelDepth t.parentKind)

/-- `ActionHandler.GetSecrets`. -/
def GetSecrets (env : ActionEnv) (req : GetSecretsRequest) :
    Except GoErr (List Secret) × List Effect :=
  let (res, tr) :=
    if req.parentType = ObjectKindProjectGroup then
      (env.getProjectGroupSecrets req.parentRef req.tree,
        [Effect.storeCall (StoreCall.getProjectGroupSecrets req.parentRef req.tree)])
    else if req.parentType = ObjectKindProject then
      (env.getProjectSecrets req.parentRef req.tree,
        [Effect.storeCall (StoreCall.getProjectSecrets req.parentRef req.tree)])
    else
      (.ok [], [])
  match res with
  | .error err => (.error (.remoteAPIError err ""), tr)
  | .ok cssecrets =>
    (.ok (if req.removeOverridden then FilterOverriddenSecrets cssecrets else cssecrets), tr)

/-- Outcome of `CreateSecret`/`UpdateSecret`: a result, an error, or a Go
nil-pointer-dereference panic (when the success log reads `rs.Name` while
`rs` is still nil because no case of the delegation switch ran). -/
inductive SecretOutcome
  | ok (s : Secret)
  | err (e : GoErr)
  | nilDeref
  deriving DecidableEq, Repr

/-- `ActionHandler.CreateSecret`. -/
def CreateSecret (env : ActionEnv) (req : CreateSecretRequest) :
    SecretOutcome × List Effect :=
  let t1 := [Effect.authzCall req.parentType req.parentRef]
  match env.isAuthUserVariableOwner req.parentType req.parentRef with
  | .error err => (.err (.wrap "failed to determine ownership" err), t1)
  | .ok isVariableOwner =>
    if !isVariableOwner then
      (.err (.apiError .forbidden none "user not authorized"), t1)
    else if !(ValidateName req.name) then
      (.err (.apiError .badRequest (some "invalidSecretName")
        ("invalid secret name \"" ++ req.name ++ "\"")), t1)
    else
      let creq : CreateUpdateSecretRequest :=
        { name := req.name, type := req.type, data := req.data }
      if req.parentType = ObjectKindProjectGroup then
        let t2 := t1 ++ [Effect.logMsg "creating project group secret",
          Effect.storeCall (StoreCall.createProjectGroupSecret req.parentRef creq)]
        match env.createProjectGroupSecret req.parentRef creq with
        | .error err => (.err (.remoteAPIError err "failed to create secret"), t2)
        | .ok rs =>
          (.ok rs, t2 ++ [Effect.logMsg ("secret " ++ rs.name ++ " created, ID: " ++ rs.id)])
      else if req.parentType = ObjectKindProject then
        let t2 := t1 ++ [Effect.logMsg "creating project secret",
          Effect.storeCall (StoreCall.createProjectSecret req.parentRef creq)]
        match env.createProjectSecret req.parentRef creq with
        | .error err => (.err (.remoteAPIError err "failed to create secret"), t2)
        | .ok rs =>
          (.ok rs, t2 ++ [Effect.logMsg ("secret " ++ rs.name ++ " created, ID: " ++ rs.id)])
      else
        -- no case of the switch runs: rs stays nil, err stays nil, and the
        -- success log dereferences the nil rs
        (.nilDeref, t1)

/-- `ActionHandler.UpdateSecret`. -/
def UpdateSecret (env : ActionEnv) (req : UpdateSecretRequest) :
    SecretOutcome × List Effect :=
  let t1 := [Effect.authzCall req.parentType req.parentRef]
  match env.isAuthUserVariableOwner req.parentType req.parentRef with
  | .error err => (.err (.wrap "failed to determine ownership" err), t1)
  | .ok isVariableOwner =>
    if !isVariableOwner then
      (.err (.apiError .forbidden none "user not authorized"), t1)
    else if !(ValidateName req.name) then
      (.err (.apiError .badRequest (some "invalidSecretName")
        ("invalid secret name \"" ++ req.name ++ "\"")), t1)
    else
      let creq : CreateUpdateSecretRequest :=
        { name := req.name, type := req.type, data := req.data }
      if req.parentType = ObjectKindProjectGroup then
        let t2 := t1 ++ [Effect.logMsg "updating project group secret",
          Effect.storeCall (StoreCall.updateProjectGroupSecret req.parentRef req.secretName creq)]
        match env.updateProjectGroupSecret req.parentRef req.secretName creq with
        | .error err => (.err (.remoteAPIError err "failed to update secret"), t2)
        | .ok rs =>
          (.ok rs, t2 ++ [Effect.logMsg ("secret " ++ rs.name ++ " updated, ID: " ++ rs.id)])
      else if req.parentType = ObjectKindProject then
        let t2 := t1 ++ [Effect.logMsg "updating project secret",
          Effect.storeCall (StoreCall.updateProjectSecret req.parentRef req.secretName creq)]
        match env.updateProjectSecret req.parentRef req.secretName creq with
        | .error err => (.err (.remoteAPIError err "failed to update secret"), t2)
        | .ok rs =>
          (.ok rs, t2 ++ [Effect.logMsg ("secret " ++ rs.name ++ " updated, ID: " ++ rs.id)])
      else
        (.nilDeref, t1)

/-- `ActionHandler.DeleteSecret`. -/
def DeleteSecret (env : ActionEnv) (parentType : ObjectKind) (parentRef name : String) :
    Except GoErr Unit × List Effect :=
  let t1 := [Effect.authzCall parentType parentRef]
  match env.isAuthUserVariableOwner parentType parentRef with
  | .error err => (.error (.wrap "failed to determine ownership" err), t1)
  | .ok isVariableOwner =>
    if !isVariableOwner then
      (.error (.apiError .forbidden none "user not authorized"), t1)
    else
      let (res, t2) :=
        if parentType = ObjectKindProjectGroup then
          (env.deleteProjectGroupSecret parentRef name,
            t1 ++ [Effect.logMsg "deleting project group secret",
              Effect.storeCall (StoreCall.deleteProjectGroupSecret parentRef name)])
        else if parentType = ObjectKindProject then
          (env.deleteProjectSecret parentRef name,
            t1 ++ [Effect.logMsg "deleting project secret",
              Effect.storeCall (StoreCall.deleteProjectSecret parentRef name)])
        else
          (.ok (), t1)
      match res with
      | .error err => (.error (.remoteAPIError err "failed to delete secret"), t2)
      | .ok _ => (.ok (), t2)

/-! ## Webhook ingestion pipeline (`webhooksHandler.do`) -/

/-- The inbound HTTP request as read by the handler: the `projectid` query
parameter (`r.URL.Query().Get` returns the empty string when it is missing
or empty), the request URL (used in the bad-request message) and the body. -/
structure HTTPRequest where
  projectid : String
  url : String
  body : String

/-- The provider client produced by `GetGitSource`: its `ParseWebhook` takes
the raw request and the project's webhook shared secret and yields the parsed
webhook data, `none` (a deliberate skip), or a parse error. -/
structure GitSource where
  parseWebhook : HTTPRequest → String → Except String (Option WebhookData)

/-- The collaborators `webhooksHandler.do` uses: the configstore client's
lookups, the provider client factory (`ActionHandler.GetGitSource`) and the
run-creation service (`ActionHandler.CreateRuns`). -/
structure WebhookEnv where
  getProject : String → Except RemoteError Project
  getUserByLinkedAccount : String → Except RemoteError User
  getUserLinkedAccounts : String → Except RemoteError (List LinkedAccount)
  getRemoteSource : String → Except RemoteError RemoteSource
  getGitSource : RemoteSource → String → LinkedAccount → Except String GitSource
  createRuns : CreateRunRequest → Except String Unit

/-- The `action.CreateRunRequest` built at webhook.go lines 104-151:
`sshPrivKey` is the project's SSH private key, `sshHostKey` the remote
source's host key, `skipSSHHostKeyCheck` the effective policy computed just
above the request, and the clone URL the event's SSH URL. -/
def mkCreateRunRequest (project : Project) (rs : RemoteSource)
    (skipSSHHostKeyCheck : Bool) (webhookData : WebhookData) : CreateRunRequest :=
  { runType := "project"
    refType := WebHookEventToRunRefType webhookData.event
    runCreationTrigger := "webhook"
    project := project
    user := none
    repoPath := webhookData.repo.path
    commitSHA := webhookData.commitSHA
    message := webhookData.message
    branch := webhookData.branch
    tag := webhookData.tag
    pullRequestID := webhookData.pullRequestID
    prFromSameRepo := webhookData.prFromSameRepo
    ref := webhookData.ref
    sshPrivKey := project.sshPrivateKey
    sshHostKey := rs.sshHostKey
    skipSSHHostKeyCheck := skipSSHHostKeyCheck
    cloneURL := webhookData.sshURL
    commitLink := webhookData.commitLink
    branchLink := webhookData.branchLink
    tagLink := webhookData.tagLink
    pullRequestLink := webhookData.pullRequestLink
    compareLink := webhookData.compareLink }

/-- The part of `webhooksHandler.do` after the `defer r.Body.Close()`
statement (webhook.go lines 67-156). -/
def webhooksHandlerDoBody (env : WebhookEnv) (r : HTTPRequest) :
    Except GoErr Unit × List Effect :=
  let t1 := [Effect.storeCall (StoreCall.getProject r.projectid)]
  match env.getProject r.projectid with
  | .error err =>
    (.error (.remoteAPIError err ("failed to get project " ++ r.projectid)), t1)
  | .ok project =>
  let t2 := t1 ++ [Effect.storeCall (StoreCall.getUserByLinkedAccount project.linkedAccountID)]
  match env.getUserByLinkedAccount project.linkedAccountID with
  | .error err =>
    (.error (.remoteAPIError err
      ("failed to get user by linked account \"" ++ project.linkedAccountID ++ "\"")), t2)
  | .ok user =>
  let t3 := t2 ++ [Effect.storeCall (StoreCall.getUserLinkedAccounts user.id)]
  match env.getUserLinkedAccounts user.id with
  | .error err =>
    (.error (.remoteAPIError err
      ("failed to get user \"" ++ user.id ++ "\" linked accounts")), t3)
  | .ok linkedAccounts =>
  -- the loop scanning linkedAccounts for the entry matching the project's
  -- linked-account reference (first match, then break)
  match linkedAccounts.find? (fun v => v.id == project.linkedAccountID) with
  | none =>
    (.error (.apiError .internal none
      ("linked account \"" ++ project.linkedAccountID ++ "\" for user \"" ++
        user.name ++ "\" doesn't exist")), t3)
  | some la =>
  let t4 := t3 ++ [Effect.storeCall (StoreCall.getRemoteSource la.remoteSourceID)]
  match env.getRemoteSource la.remoteSourceID with
  | .error err =>
    (.error (.remoteAPIError err
      ("failed to get remote source \"" ++ la.remoteSourceID ++ "\"")), t4)
  | .ok rs =>
  let t5 := t4 ++ [Effect.getGitSourceCall]
  match env.getGitSource rs user.name la with
  | .error err =>
    (.error (.apiErrorWrap .internal "failed to create gitea client" err), t5)
  | .ok gitSource =>
  -- use remotesource skipSSHHostKeyCheck config and override with project
  -- config if set to true there
  let skipSSHHostKeyCheck :=
    if project.skipSSHHostKeyCheck then project.skipSSHHostKeyCheck
    else rs.skipSSHHostKeyCheck
  let t6 := t5 ++ [Effect.parseWebhookCall]
  match gitSource.parseWebhook r project.webhookSecret with
  | .error err =>
    (.error (.apiErrorWrap .badRequest "failed to parse webhook" err), t6)
  | .ok none =>
    -- skip nil webhook data
    (.ok (), t6 ++ [Effect.logMsg "skipping webhook"])
  | .ok (some webhookData) =>
  let req := mkCreateRunRequest project rs skipSSHHostKeyCheck webhookData
  let t7 := t6 ++ [Effect.createRunsCall req]
  match env.createRuns req with
  | .error err => (.error (.apiErrorWrap .internal "failed to create run" err), t7)
  | .ok _ => (.ok (), t7)

/-- `webhooksHandler.do` (webhook.go lines 57-157).  The missing-projectid
check precedes `defer r.Body.Close()`, so only exit paths taken after it get
the deferred body close, modelled as a `bodyClose` effect appended (the
deferred call runs last) to the trace of the remainder of the function. -/
def webhooksHandlerDo (env : WebhookEnv) (r : HTTPRequest) :
    Except GoErr Unit × List Effect :=
  if r.projectid = "" then
    (.error (.apiError .badRequest none
      ("bad webhook url \"" ++ r.url ++ "\". Missing projectid")), [])
  else
    let res := webhooksHandlerDoBody env r
    (res.1, res.2 ++ [Effect.bodyClose])

/-! ## Concrete environments and inputs used by witnesses and counterexamples -/

/-- A concrete secret returned by the stub store. -/
def okSecret : Secret :=
  { id := "id1", name := "n1", parentKind := ObjectKindProject, type := "internal", data := [] }

/-- Stub action environment whose authorization service denies ownership. -/
def denyEnv : ActionEnv where
  isAuthUserVariableOwner := fun _ _ => .ok false
  getProjectGroupSecrets := fun _ _ => .ok []
  getProjectSecrets := fun _ _ => .ok []
  createProjectGroupSecret := fun _ _ => .ok okSecret
  createProjectSecret := fun _ _ => .ok okSecret
  updateProjectGroupSecret := fun _ _ _ => .ok okSecret
  updateProjectSecret := fun _ _ _ => .ok okSecret
  deleteProjectGroupSecret := fun _ _ => .ok ()
  deleteProjectSecret := fun _ _ => .ok ()

/-- Stub action environment whose authorization service grants ownership. -/
def grantEnv : ActionEnv :=
  { denyEnv with isAuthUserVariableOwner := fun _ _ => .ok true }

/-- A create request whose parent kind is neither Project nor ProjectGroup. -/
def orgCreateReq : CreateSecretRequest :=
  { name := "tok", parentType := "org", parentRef := "ref1", type := "internal",
    data := [("k", "v")], secretProviderID := "", path := "" }

/-- An update request whose parent kind is neither Project nor ProjectGroup. -/
def orgUpdateReq : UpdateSecretRequest :=
  { secretName := "tok", name := "tok", parentType := "org", parentRef := "ref1",
    type := "internal", data := [("k", "v")], secretProviderID := "", path := "" }

/-- A create request under a Project scope. -/
def projCreateReq : CreateSecretRequest :=
  { name := "tok", parentType := ObjectKindProject, parentRef := "ref1", type := "internal",
    data := [("k", "v")], secretProviderID := "", path := "" }

/-- An update request under a Project scope. -/
def projUpdateReq : UpdateSecretRequest :=
  { secretName := "tok", name := "tok", parentType := ObjectKindProject, parentRef := "ref1",
    type := "internal", data := [("k", "v")], secretProviderID := "", path := "" }

/-- A create request under a Project scope with a whitespace-carrying name. -/
def badNameCreateReq : CreateSecretRequest :=
  { projCreateReq with name := "bad name" }

/-- An update request under a Project scope with an empty name. -/
def badNameUpdateReq : UpdateSecretRequest :=
  { projUpdateReq with name := "" }

/-- The spec's shadowing example: secret "A" at ProjectGroup level. -/
def secAgroup : Secret :=
  { id := "s1", name := "A", parentKind := ObjectKindProjectGroup, type := "internal", data := [] }

/-- The spec's shadowing example: secret "A" at Project level. -/
def secAproj : Secret :=
  { id := "s2", name := "A", parentKind := ObjectKindProject, type := "internal", data := [] }

/-- The spec's shadowing example: secret "B" at ProjectGroup level. -/
def secBgroup : Secret :=
  { id := "s3", name := "B", parentKind := ObjectKindProjectGroup, type := "internal", data := [] }

/-- The spec's shadowing example input list. -/
def exampleSecrets : List Secret := [secAgroup, secAproj, secBgroup]

/-- Stub action environment whose store returns the shadowing example list. -/
def secretsEnv : ActionEnv :=
  { grantEnv with getProjectSecrets := fun _ _ => .ok exampleSecrets }

/-- A concrete project whose own skip flag is true. -/
def projSkipTrue : Project :=
  { linkedAccountID := "la1", sshPrivateKey := "pk", webhookSecret := "ws",
    skipSSHHostKeyCheck := true }

/-- A concrete project whose own skip flag is false. -/
def projSkipFalse : Project :=
  { projSkipTrue with skipSSHHostKeyCheck := false }

/-- A concrete remote source that requires host-key verification. -/
def rsSkipFalse : RemoteSource :=
  { sshHostKey := "hk", skipSSHHostKeyCheck := false }

/-- A concrete user. -/
def user1 : User := { id := "u1", name := "user01" }

/-- A concrete linked account binding `user1` to remote source "rs1". -/
def la1 : LinkedAccount := { id := "la1", remoteSourceID := "rs1" }

/-- A concrete parsed webhook event. -/
def wdPush : WebhookData :=
  { event := "push", sshURL := "git@host:repo.git", repo := { path := "org/repo" },
    commitSHA := "deadbeef", message := "msg", branch := "main", tag := "",
    pullRequestID := "", prFromSameRepo := false, ref := "refs/heads/main",
    commitLink := "cl", branchLink := "bl", tagLink := "tl",
    pullRequestLink := "prl", compareLink := "cmp" }

/-- A provider client whose parser always yields no event (a skip). -/
def gitSourceNilEvent : GitSource where
  parseWebhook := fun _ _ => .ok none

/-- A provider client whose parser always yields the push event `wdPush`. -/
def gitSourcePushEvent : GitSource where
  parseWebhook := fun _ _ => .ok (some wdPush)

/-- Stub webhook environment: every lookup succeeds, the parser skips. -/
def stubWebhookEnv : WebhookEnv where
  getProject := fun _ => .ok projSkipFalse
  getUserByLinkedAccount := fun _ => .ok user1
  getUserLinkedAccounts := fun _ => .ok [la1]
  getRemoteSource := fun _ => .ok rsSkipFalse
  getGitSource := fun _ _ _ => .ok gitSourceNilEvent
  createRuns := fun _ => .ok ()

/-- Stub webhook environment whose user has no linked accounts, so the scan
for the project's linked-account reference finds nothing. -/
def stubWebhookEnvNoLa : WebhookEnv :=
  { stubWebhookEnv with getUserLinkedAccounts := fun _ => .ok [] }

/-- Stub webhook environment: project skip flag true, remote source skip flag
false, parser yields a push event. -/
def stubWebhookEnvSkipProj : WebhookEnv :=
  { stubWebhookEnv with
    getProject := fun _ => .ok projSkipTrue
    getGitSource := fun _ _ _ => .ok gitSourcePushEvent }

/-- A webhook request carrying a projectid. -/
def webhookReq : HTTPRequest :=
  { projectid := "p1", url := "http://gw/webhooks?projectid=p1", body := "payload" }

/-- A webhook request with no (equivalently, an empty) projectid query
parameter. -/
def missingProjectidReq : HTTPRequest :=
  { projectid := "", url := "http://gw/webhooks", body := "payload" }

/-! ## Claims -/

/-- C2: for every create, update, or delete secret request where the
ownership check returns false without error, the operation returns a
Forbidden error and no store mutation call is performed. -/
theorem nonOwner_secret_ops_forbidden_no_store_call
    (env : ActionEnv) (creq : CreateSecretRequest) (ureq : UpdateSecretRequest)
    (pt : ObjectKind) (ref name : String)
    (hc : env.isAuthUserVariableOwner creq.parentType creq.parentRef = .ok false)
    (hu : env.isAuthUserVariableOwner ureq.parentType ureq.parentRef = .ok false)
    (hd : env.isAuthUserVariableOwner pt ref = .ok false) :
    ((CreateSecret env creq).1 = .err (.apiError .forbidden none "user not authorized")
      ∧ ∀ c, Effect.storeCall c ∉ (CreateSecret env creq).2)
    ∧ ((UpdateSecret env ureq).1 = .err (.apiError .forbidden none "user not authorized")
      ∧ ∀ c, Effect.storeCall c ∉ (UpdateSecret env ureq).2)
    ∧ ((DeleteSecret env pt ref name).1 = .error (.apiError .forbidden none "user not authorized")
      ∧ ∀ c, Effect.storeCall c ∉ (DeleteSecret env pt ref name).2) := by
  refine ⟨⟨?_, ?_⟩, ⟨?_, ?_⟩, ⟨?_, ?_⟩⟩ <;>
    simp [CreateSecret, UpdateSecret, DeleteSecret, hc, hu, hd]

/-- Witness for C2 at a concrete denying environment and concrete requests. -/
theorem nonOwner_secret_ops_forbidden_no_store_call_witness :
    (CreateSecret denyEnv projCreateReq).1
        = .err (.apiError .forbidden none "user not authorized")
    ∧ (UpdateSecret denyEnv projUpdateReq).1
        = .err (.apiError .forbidden none "user not authorized")
    ∧ (DeleteSecret denyEnv ObjectKindProject "ref1" "tok").1
        = .error (.apiError .forbidden none "user not authorized")
    ∧ Effect.storeCall (StoreCall.deleteProjectSecret "ref1" "tok")
        ∉ (DeleteSecret denyEnv ObjectKindProject "ref1" "tok").2 := by
  have h := nonOwner_secret_ops_forbidden_no_store_call denyEnv projCreateReq projUpdateReq
    ObjectKindProject "ref1" "tok" rfl rfl rfl
  exact ⟨h.1.1, h.2.1.1, h.2.2.1, h.2.2.2 _⟩

/-- C10: a delete by a variable owner whose parent kind is neither Project
nor ProjectGroup returns no error while performing no store delete call. -/
theorem deleteSecret_unknown_parent_kind_noop
    (env : ActionEnv) (pt : ObjectKind) (ref name : String)
    (h : env.isAuthUserVariableOwner pt ref = .ok true)
    (hp : pt ≠ ObjectKindProject) (hg : pt ≠ ObjectKindProjectGroup) :
    (DeleteSecret env pt ref name).1 = .ok ()
    ∧ ∀ c, Effect.storeCall c ∉ (DeleteSecret env pt ref name).2 := by
  constructor <;> simp [DeleteSecret, h, hp, hg]

/-- Witness for C10 at the concrete parent kind "org". -/
theorem deleteSecret_unknown_parent_kind_noop_witness :
    grantEnv.isAuthUserVariableOwner "org" "ref1" = .ok true
    ∧ ("org" : ObjectKind) ≠ ObjectKindProject
    ∧ ("org" : ObjectKind) ≠ ObjectKindProjectGroup
    ∧ (DeleteSecret grantEnv "org" "ref1" "tok").1 = .ok ()
    ∧ Effect.storeCall (StoreCall.deleteProjectSecret "ref1" "tok")
        ∉ (DeleteSecret grantEnv "org" "ref1" "tok").2 := by
  have h := deleteSecret_unknown_parent_kind_noop grantEnv "org" "ref1" "tok" rfl
    (by decide) (by decide)
  exact ⟨rfl, by decide, by decide, h.1, h.2 _⟩

/-- C9 (code bug): a create or update by a variable owner with a valid name
whose parent kind is neither Project nor ProjectGroup leaves the result
pointer nil and the success log then dereferences it — the success path does
dereference a nil result. -/
theorem createUpdateSecret_nil_deref_on_unknown_parent_kind :
    (CreateSecret grantEnv orgCreateReq).1 = SecretOutcome.nilDeref
    ∧ (UpdateSecret grantEnv orgUpdateReq).1 = SecretOutcome.nilDeref := by
  exact ⟨by decide, by decide⟩

/-- C5: for create/update by a variable owner, names failing the name-syntax
rule fail with the dedicated invalid-secret-name error (BadRequest carrying
the InvalidSecretName detailed kind) before any store call; names passing the
rule are never rejected with that error. -/
theorem secret_name_validation_gate
    (env : ActionEnv) (creq : CreateSecretRequest) (ureq : UpdateSecretRequest)
    (hc : env.isAuthUserVariableOwner creq.parentType creq.parentRef = .ok true)
    (hu : env.isAuthUserVariableOwner ureq.parentType ureq.parentRef = .ok true) :
    (ValidateName creq.name = false →
      (CreateSecret env creq).1 = .err (.apiError .badRequest (some "invalidSecretName")
        ("invalid secret name \"" ++ creq.name ++ "\""))
      ∧ ∀ c, Effect.storeCall c ∉ (CreateSecret env creq).2)
    ∧ (ValidateName creq.name = true →
      ∀ e, (CreateSecret env creq).1 = .err e → e.isInvalidSecretNameErr = false)
    ∧ (ValidateName ureq.name = false →
      (UpdateSecret env ureq).1 = .err (.apiError .badRequest (some "invalidSecretName")
        ("invalid secret name \"" ++ ureq.name ++ "\""))
      ∧ ∀ c, Effect.storeCall c ∉ (UpdateSecret env ureq).2)
    ∧ (ValidateName ureq.name = true →
      ∀ e, (UpdateSecret env ureq).1 = .err e → e.isInvalidSecretNameErr = false) := by
  refine ⟨fun hv => ?_, fun hv e he => ?_, fun hv => ?_, fun hv e he => ?_⟩
  · constructor <;> simp [CreateSecret, hc, hv]
  · simp [CreateSecret, hc, hv] at he
    split at he <;> (try split at he) <;> (try split at he) <;>
      (try simp_all [GoErr.isInvalidSecretNameErr]) <;> (subst he) <;> rfl
  · constructor <;> simp [UpdateSecret, hu, hv]
  · simp [UpdateSecret, hu, hv] at he
    split at he <;> (try split at he) <;> (try split at he) <;>
      (try simp_all [GoErr.isInvalidSecretNameErr]) <;> (subst he) <;> rfl

/-- Witness for C5 at a concrete granting environment, with the
whitespace-carrying name "bad name" for create and the empty name for
update. -/
theorem secret_name_validation_gate_witness :
    grantEnv.isAuthUserVariableOwner ObjectKindProject "ref1" = .ok true
    ∧ ValidateName "bad name" = false
    ∧ ValidateName "" = false
    ∧ (CreateSecret grantEnv badNameCreateReq).1
        = .err (.apiError .badRequest (some "invalidSecretName")
            ("invalid secret name \"" ++ badNameCreateReq.name ++ "\""))
    ∧ Effect.storeCall
        (StoreCall.createProjectSecret "ref1"
          { name := "bad name", type := "internal", data := [("k", "v")] })
        ∉ (CreateSecret grantEnv badNameCreateReq).2
    ∧ (UpdateSecret grantEnv badNameUpdateReq).1
        = .err (.apiError .badRequest (some "invalidSecretName")
            ("invalid secret name \"" ++ badNameUpdateReq.name ++ "\"")) := by
  have h := secret_name_validation_gate grantEnv badNameCreateReq badNameUpdateReq rfl rfl
  exact ⟨rfl, by decide, by decide, (h.1 (by decide)).1, (h.1 (by decide)).2 _,
    (h.2.2.1 (by decide)).1⟩

/-- C8: with the remove-overridden flag set, `GetSecrets` returns the store's
result with, for each distinct name, only the secret from the most specific
(deepest) hierarchy level kept; same-name secrets from shallower levels are
dropped. -/
theorem getSecrets_remove_overridden_deepest_wins
    (env : ActionEnv) (ref : String) (tree : Bool) (l : List Secret)
    (h : env.getProjectSecrets ref tree = .ok l) :
    (GetSecrets env
      { parentType := ObjectKindProject, parentRef := ref, tree := tree,
        removeOverridden := true }).1 = .ok (FilterOverriddenSecrets l)
    ∧ ∀ s : Secret, s ∈ FilterOverriddenSecrets l ↔
        (s ∈ l ∧ ∀ t ∈ l, t.name = s.name →
          levelDepth t.parentKind ≤ levelDepth s.parentKind) := by
  constructor
  · simp [GetSecrets, ObjectKindProject, ObjectKindProjectGroup, h]
  · intro s
    simp only [FilterOverriddenSecrets, List.mem_filter, List.all_eq_true,
      Bool.not_eq_true', Bool.and_eq_false_iff, beq_eq_false_iff_ne,
      decide_eq_false_iff_not, not_lt, ne_eq]
    constructor
    · rintro ⟨hs, hall⟩
      exact ⟨hs, fun t ht hname => ((hall t ht).resolve_left (fun hne => hne hname))⟩
    · rintro ⟨hs, hall⟩
      refine ⟨hs, fun t ht => ?_⟩
      by_cases hname : t.name = s.name
      · exact Or.inr (hall t ht hname)
      · exact Or.inl hname

/-- Witness for C8 at the spec's concrete shadowing example:
{("A", ProjectGroup), ("A", Project), ("B", ProjectGroup)} yields exactly
{("A", Project), ("B", ProjectGroup)}. -/
theorem getSecrets_remove_overridden_deepest_wins_witness :
    secretsEnv.getProjectSecrets "proj1" false = .ok exampleSecrets
    ∧ (GetSecrets secretsEnv
        { parentType := ObjectKindProject, parentRef := "proj1", tree := false,
          removeOverridden := true }).1 = .ok (FilterOverriddenSecrets exampleSecrets)
    ∧ FilterOverriddenSecrets exampleSecrets = [secAproj, secBgroup] := by
  refine ⟨rfl, (getSecrets_remove_overridden_deepest_wins secretsEnv "proj1" false
    exampleSecrets rfl).1, by decide⟩

/-- C4: a webhook request with a missing (empty) `projectid` query parameter
returns a BadRequest error with an empty effect trace: no store lookup, no
parsing, no run creation is attempted. -/
theorem webhook_missing_projectid_bad_request
    (env : WebhookEnv) (r : HTTPRequest) (h : r.projectid = "") :
    (webhooksHandlerDo env r).1 = .error (.apiError .badRequest none
      ("bad webhook url \"" ++ r.url ++ "\". Missing projectid"))
    ∧ (webhooksHandlerDo env r).2 = [] := by
  constructor <;> simp [webhooksHandlerDo, h]

/-- Witness for C4 at a concrete environment and request. -/
theorem webhook_missing_projectid_bad_request_witness :
    missingProjectidReq.projectid = ""
    ∧ (webhooksHandlerDo stubWebhookEnv missingProjectidReq).1
        = .error (.apiError .badRequest none
            ("bad webhook url \"" ++ missingProjectidReq.url ++ "\". Missing projectid"))
    ∧ (webhooksHandlerDo stubWebhookEnv missingProjectidReq).2 = [] := by
  have h := webhook_missing_projectid_bad_request stubWebhookEnv missingProjectidReq rfl
  exact ⟨rfl, h.1, h.2⟩

/-- C6 counterexample: on the missing-projectid rejection path the handler
returns without closing the request body — the `defer r.Body.Close()` at
webhook.go line 65 is registered only after the projectid check at lines
60-63 has already returned. -/
theorem webhook_body_not_closed_on_missing_projectid :
    missingProjectidReq.projectid = ""
    ∧ Effect.bodyClose ∉ (webhooksHandlerDo stubWebhookEnv missingProjectidReq).2 := by
  exact ⟨rfl, by decide⟩

/-- C6 as amended: on every exit path reached after the projectid check —
success, skip, or any failure — the request body reader is closed before the
handler returns; only the missing-projectid rejection exits without closing
it. -/
theorem webhook_body_closed_after_projectid_check
    (env : WebhookEnv) (r : HTTPRequest) (h : r.projectid ≠ "") :
    Effect.bodyClose ∈ (webhooksHandlerDo env r).2 := by
  simp [webhooksHandlerDo, h]

/-- Witness for the amended C6 at a concrete environment and request. -/
theorem webhook_body_closed_after_projectid_check_witness :
    webhookReq.projectid ≠ ""
    ∧ Effect.bodyClose ∈ (webhooksHandlerDo stubWebhookEnv webhookReq).2 := by
  exact ⟨by decide, webhook_body_closed_after_projectid_check stubWebhookEnv webhookReq
    (by decide)⟩

/-- C7: when the owning user's linked-account set has no entry whose id
equals the project's linked-account reference, the pipeline fails with an
Internal error whose message names both the user and the missing
linked-account id — not a bad request. -/
theorem webhook_missing_linked_account_integrity_error
    (env : WebhookEnv) (r : HTTPRequest) (p : Project) (u : User)
    (las : List LinkedAccount)
    (hpid : r.projectid ≠ "")
    (hp : env.getProject r.projectid = .ok p)
    (hu : env.getUserByLinkedAccount p.linkedAccountID = .ok u)
    (hl : env.getUserLinkedAccounts u.id = .ok las)
    (hfind : las.find? (fun v => v.id == p.linkedAccountID) = none) :
    (webhooksHandlerDo env r).1 = .error (.apiError .internal none
      ("linked account \"" ++ p.linkedAccountID ++ "\" for user \"" ++ u.name
        ++ "\" doesn't exist")) := by
  simp [webhooksHandlerDo, webhooksHandlerDoBody, hpid, hp, hu, hl, hfind]

/-- Witness for C7: the stub user has an empty linked-account set. -/
theorem webhook_missing_linked_account_integrity_error_witness :
    webhookReq.projectid ≠ ""
    ∧ stubWebhookEnvNoLa.getUserLinkedAccounts user1.id = .ok []
    ∧ (webhooksHandlerDo stubWebhookEnvNoLa webhookReq).1
        = .error (.apiError .internal none
            ("linked account \"" ++ projSkipFalse.linkedAccountID ++ "\" for user \""
              ++ user1.name ++ "\" doesn't exist")) := by
  exact ⟨by decide, rfl, webhook_missing_linked_account_integrity_error stubWebhookEnvNoLa
    webhookReq projSkipFalse user1 [] (by decide) rfl rfl rfl rfl⟩

/-- C3: when the provider parser yields no event (nil) and no error, the
pipeline terminates successfully, the skip is logged, and the run-creation
collaborator is never invoked. -/
theorem webhook_nil_event_skips_run_creation
    (env : WebhookEnv) (r : HTTPRequest) (p : Project) (u : User)
    (las : List LinkedAccount) (la : LinkedAccount) (rs : RemoteSource) (gs : GitSource)
    (hpid : r.projectid ≠ "")
    (hp : env.getProject r.projectid = .ok p)
    (hu : env.getUserByLinkedAccount p.linkedAccountID = .ok u)
    (hl : env.getUserLinkedAccounts u.id = .ok las)
    (hfind : las.find? (fun v => v.id == p.linkedAccountID) = some la)
    (hrs : env.getRemoteSource la.remoteSourceID = .ok rs)
    (hgs : env.getGitSource rs u.name la = .ok gs)
    (hparse : gs.parseWebhook r p.webhookSecret = .ok none) :
    (webhooksHandlerDo env r).1 = .ok ()
    ∧ Effect.logMsg "skipping webhook" ∈ (webhooksHandlerDo env r).2
    ∧ ∀ req : CreateRunRequest,
        Effect.createRunsCall req ∉ (webhooksHandlerDo env r).2 := by
  refine ⟨?_, ?_, ?_⟩ <;>
    simp [webhooksHandlerDo, webhooksHandlerDoBody, hpid, hp, hu, hl, hfind, hrs, hgs,
      hparse]

/-- Witness for C3 at a concrete environment whose parser always skips. -/
theorem webhook_nil_event_skips_run_creation_witness :
    gitSourceNilEvent.parseWebhook webhookReq projSkipFalse.webhookSecret = .ok none
    ∧ (webhooksHandlerDo stubWebhookEnv webhookReq).1 = .ok ()
    ∧ Effect.createRunsCall (mkCreateRunRequest projSkipFalse rsSkipFalse false wdPush)
        ∉ (webhooksHandlerDo stubWebhookEnv webhookReq).2 := by
  have h := webhook_nil_event_skips_run_creation stubWebhookEnv webhookReq projSkipFalse
    user1 [la1] la1 rsSkipFalse gitSourceNilEvent (by decide) rfl rfl rfl rfl rfl rfl rfl
  exact ⟨rfl, h.1, h.2.2 _⟩

/-- C1: the effective SSH host-key-skip policy handed to the run-creation
request starts from the remote source's flag and is overridden to true when
the project's flag is true — for every pair of flags it equals their
disjunction: (rs=false, proj=true) gives true, (true, false) gives true,
(false, false) gives false, (true, true) gives true; the project flag can
force skipping on but never off. -/
theorem webhook_effective_ssh_skip_policy
    (env : WebhookEnv) (r : HTTPRequest) (p : Project) (u : User)
    (las : List LinkedAccount) (la : LinkedAccount) (rs : RemoteSource) (gs : GitSource)
    (wd : WebhookData)
    (hpid : r.projectid ≠ "")
    (hp : env.getProject r.projectid = .ok p)
    (hu : env.getUserByLinkedAccount p.linkedAccountID = .ok u)
    (hl : env.getUserLinkedAccounts u.id = .ok las)
    (hfind : las.find? (fun v => v.id == p.linkedAccountID) = some la)
    (hrs : env.getRemoteSource la.remoteSourceID = .ok rs)
    (hgs : env.getGitSource rs u.name la = .ok gs)
    (hparse : gs.parseWebhook r p.webhookSecret = .ok (some wd)) :
    Effect.createRunsCall (mkCreateRunRequest p rs
        (if p.skipSSHHostKeyCheck then p.skipSSHHostKeyCheck else rs.skipSSHHostKeyCheck) wd)
      ∈ (webhooksHandlerDo env r).2
    ∧ (mkCreateRunRequest p rs
        (if p.skipSSHHostKeyCheck then p.skipSSHHostKeyCheck else rs.skipSSHHostKeyCheck)
        wd).skipSSHHostKeyCheck
      = (rs.skipSSHHostKeyCheck || p.skipSSHHostKeyCheck) := by
  constructor
  · cases hcr : env.createRuns (mkCreateRunRequest p rs
      (if p.skipSSHHostKeyCheck then p.skipSSHHostKeyCheck else rs.skipSSHHostKeyCheck) wd) <;>
      simp [webhooksHandlerDo, webhooksHandlerDoBody, hpid, hp, hu, hl, hfind, hrs, hgs,
        hparse, hcr]
  · cases hps : p.skipSSHHostKeyCheck <;> cases hrss : rs.skipSSHHostKeyCheck <;>
      simp [mkCreateRunRequest]

/-- Witness for C1 at (rs=false, proj=true): the effective policy is true. -/
theorem webhook_effective_ssh_skip_policy_witness :
    (mkCreateRunRequest projSkipTrue rsSkipFalse
        (if projSkipTrue.skipSSHHostKeyCheck then projSkipTrue.skipSSHHostKeyCheck
          else rsSkipFalse.skipSSHHostKeyCheck) wdPush).skipSSHHostKeyCheck = true
    ∧ Effect.createRunsCall (mkCreateRunRequest projSkipTrue rsSkipFalse
        (if projSkipTrue.skipSSHHostKeyCheck then projSkipTrue.skipSSHHostKeyCheck
          else rsSkipFalse.skipSSHHostKeyCheck) wdPush)
      ∈ (webhooksHandlerDo stubWebhookEnvSkipProj webhookReq).2 := by
  have h := webhook_effective_ssh_skip_policy stubWebhookEnvSkipProj webhookReq projSkipTrue
    user1 [la1] la1 rsSkipFalse gitSourcePushEvent wdPush (by decide) rfl rfl rfl rfl rfl
    rfl rfl
  exact ⟨by decide, h.1⟩
